import Mathlib

/-!
Verification of the edusmart school-management application (src/edusmart.py)
against its natural-language specification.

Real-valued columns (REAL in the SQL schema, Python floats) are embedded as
rationals; machine text as String; nullable SQL columns as Option.
The grade-aggregation engine (computeSessionMark, classifySubject) is not
present in the source file; per the spec it is the designed engine implied by
the schema, so those definitions are modelled from the spec and marked as such.
-/

/- ===================== Definitions ===================== -/

/-- Modelled from the spec: the Aggregator partitions entries and takes the
arithmetic mean of a group; the mean of an empty group is undefined (not zero)
(spec section 4.2, step 2). This code is absent from src. -/
def groupMean (xs : List ℚ) : Option ℚ :=
  if xs.length = 0 then none else some (xs.sum / (xs.length : ℚ))

/-- Modelled from the spec: the possible session-mark results of the
Aggregator: a full blended mark, a provisional single-group mark (degraded
mode), or the distinct no-data value (spec section 4.2, steps 3-5). -/
inductive SessionMark
  | full (v : ℚ)
  | provisional (v : ℚ)
  | noData
  deriving DecidableEq

/-- Modelled from the spec: computeSessionMark, absent from src. Partition is
given as the two groups; if both means are defined the mark is
continuous_mean * w + exam_mean * (1 - w); one defined mean gives that mean
alone flagged provisional; neither gives the no-data value
(spec section 4.2, steps 1-5). -/
def computeSessionMark (w : ℚ) (continuous exam : List ℚ) : SessionMark :=
  match groupMean continuous, groupMean exam with
  | some cm, some em => SessionMark.full (cm * w + em * (1 - w))
  | some cm, none => SessionMark.provisional cm
  | none, some em => SessionMark.provisional em
  | none, none => SessionMark.noData

/-- Modelled from the spec: the result type of the Eligibility Classifier
(spec section 4.3). -/
inductive SubjectStatus
  | pass
  | fail
  | incomplete
  deriving DecidableEq

/-- Modelled from the spec: classifySubject, absent from src. Mark at or above
threshold gives Pass (inclusive boundary), defined and below threshold gives
Fail, undefined gives Incomplete (spec section 4.3). -/
def classifySubject (mark : Option ℚ) (threshold : ℚ) : SubjectStatus :=
  match mark with
  | none => SubjectStatus.incomplete
  | some m => if threshold ≤ m then SubjectStatus.pass else SubjectStatus.fail

/-- The two database backends the application can talk to. -/
inductive Backend
  | postgres
  | sqlite
  deriving DecidableEq

/-- From src get_conn (lines 110-123): the argument is the configured
DATABASE_URL value, already stripped of whitespace at configuration time
(src line 23). A Python string is truthy exactly when non-empty, so get_conn
opens a PostgreSQL connection when DATABASE_URL is non-empty and otherwise a
connection to the embedded SQLite file edusmart.db. -/
def get_conn (DATABASE_URL : String) : Backend :=
  if DATABASE_URL = "" then Backend.sqlite else Backend.postgres

/-- The SQLite database file name from src (DB_FILE, line 36). -/
def DB_FILE : String := "edusmart.db"

/-- The query text of get_user_by_email (src line 267), transcribed. -/
def get_user_by_email_query : String :=
  "SELECT * FROM users WHERE email = %s"

/-- The query text of add_etudiant (src line 326), transcribed. -/
def add_etudiant_query : String :=
  "INSERT INTO etudiants (nom, prenom, matricule, date_naissance, lieu_naissance, adresse, telephone, email, photo, document_scanne, classe_id) VALUES (%s, %s, %s, %s, %s, %s, %s, %s, %s, %s, %s)"

/-- The query text of add_note (src line 334), transcribed. -/
def add_note_query : String :=
  "INSERT INTO notes (etudiant_id, matiere_id, session, type, controle, note) VALUES (%s, %s, %s, %s, %s, %s)"

/-- The query text of get_etablissement_count (src line 259), transcribed. -/
def get_etablissement_count_query : String :=
  "SELECT COUNT(*) FROM etablissement"

/-- True when the SQL text contains the format-style placeholder marker used
by the psycopg2 driver. -/
def hasFormatPlaceholder : List Char → Bool
  | [] => false
  | c :: rest =>
    (c = '%' && rest.head? = some 's') || hasFormatPlaceholder rest

/-- True when the query string uses %s parameter placeholders. -/
def usesFormatPlaceholder (q : String) : Bool :=
  hasFormatPlaceholder q.toList

/-- Modelled from the documented semantics of the two drivers the source
imports: psycopg2 (PostgreSQL) substitutes format-style %s placeholders, so
such statements execute; the standard-library sqlite3 driver supports only
qmark and named placeholders and its SQL parser raises OperationalError
(syntax error near the percent sign) on a statement containing %s. -/
def executesWithoutError (b : Backend) (query : String) : Bool :=
  match b with
  | Backend.postgres => true
  | Backend.sqlite => !(usesFormatPlaceholder query)

/-- The parameterized queries run by the data-access functions named in the
claim: get_user_by_email, add_etudiant, add_note, get_etablissement_count. -/
def dataAccessQueries : List String :=
  [get_user_by_email_query, add_etudiant_query, add_note_query,
    get_etablissement_count_query]

/-- A row of the matieres table as created by init_db (src lines 170-178):
id SERIAL, nom TEXT, coefficient INTEGER DEFAULT 1, classe_id nullable
REFERENCES classes, note_de_passage REAL DEFAULT 65.0, intra_weight REAL
DEFAULT 0.3. -/
structure MatiereRow where
  id : Nat
  nom : String
  coefficient : Int
  classe_id : Option Nat
  note_de_passage : ℚ
  intra_weight : ℚ
  deriving DecidableEq

/-- Inserting a matieres row: columns not supplied at insertion take the
DEFAULT of the CREATE TABLE statement (src lines 170-178): coefficient 1,
note_de_passage 65.0, intra_weight 0.3. -/
def insertMatiere (id : Nat) (nom : String) (classe_id : Option Nat)
    (coefficient : Option Int) (note_de_passage : Option ℚ)
    (intra_weight : Option ℚ) : MatiereRow :=
  { id := id
    nom := nom
    coefficient := coefficient.getD 1
    classe_id := classe_id
    note_de_passage := note_de_passage.getD 65
    intra_weight := intra_weight.getD (3/10) }

/-- A row of etablissement (src lines 129-140). -/
structure EtablissementRow where
  id : Nat
  nom : String
  adresse : String
  telephone : String
  directeur : String
  type : String
  actif : Int
  email : String
  logo : Option String
  deriving DecidableEq

/-- A row of abonnements (src lines 141-148): etablissement_id NOT NULL
REFERENCES etablissement ON DELETE CASCADE. -/
structure AbonnementRow where
  id : Nat
  etablissement_id : Nat
  date_debut : String
  date_fin : String
  statut : String
  deriving DecidableEq

/-- A row of users (src lines 149-156): etablissement_id nullable REFERENCES
etablissement ON DELETE CASCADE; columns in SELECT * order are id, email,
password, role, etablissement_id. -/
structure UserRow where
  id : Nat
  email : String
  password : String
  role : String
  etablissement_id : Option Nat
  deriving DecidableEq

/-- A row of annees (src lines 157-161). -/
structure AnneeRow where
  id : Nat
  nom : String
  deriving DecidableEq

/-- A row of classes (src lines 162-169): annee_id REFERENCES annees ON
DELETE SET NULL, etablissement_id REFERENCES etablissement ON DELETE
CASCADE. -/
structure ClasseRow where
  id : Nat
  nom : String
  niveau : String
  annee_id : Option Nat
  etablissement_id : Option Nat
  deriving DecidableEq

/-- A row of etudiants (src lines 179-193): classe_id REFERENCES classes ON
DELETE SET NULL. -/
structure EtudiantRow where
  id : Nat
  nom : String
  prenom : String
  matricule : String
  date_naissance : String
  lieu_naissance : String
  adresse : String
  telephone : String
  email : String
  photo : Option String
  document_scanne : Option String
  classe_id : Option Nat
  deriving DecidableEq

/-- A row of notes (src lines 194-203): etudiant_id REFERENCES etudiants ON
DELETE CASCADE, matiere_id REFERENCES matieres ON DELETE CASCADE. -/
structure NoteRow where
  id : Nat
  etudiant_id : Option Nat
  matiere_id : Option Nat
  session : Int
  type : String
  controle : Int
  note : ℚ
  deriving DecidableEq

/-- A row of modalites_paiement (src lines 204-211): etablissement_id NOT
NULL REFERENCES etablissement ON DELETE CASCADE. -/
structure ModaliteRow where
  id : Nat
  etablissement_id : Nat
  nom : String
  montant : ℚ
  frequence : String
  deriving DecidableEq

/-- A row of paiements (src lines 212-220): etudiant_id NOT NULL REFERENCES
etudiants ON DELETE CASCADE, modalite_id NOT NULL REFERENCES
modalites_paiement ON DELETE CASCADE. -/
structure PaiementRow where
  id : Nat
  etudiant_id : Nat
  modalite_id : Nat
  date_paiement : String
  montant_paye : ℚ
  methode : String
  deriving DecidableEq

/-- A row of presences (src lines 221-228): etudiant_id NOT NULL REFERENCES
etudiants ON DELETE CASCADE. -/
structure PresenceRow where
  id : Nat
  etudiant_id : Nat
  date : String
  statut : String
  motif : Option String
  deriving DecidableEq

/-- The database state: one list of rows per table created by init_db
(src lines 125-253). -/
structure DB where
  etablissement : List EtablissementRow
  abonnements : List AbonnementRow
  users : List UserRow
  annees : List AnneeRow
  classes : List ClasseRow
  matieres : List MatiereRow
  etudiants : List EtudiantRow
  notes : List NoteRow
  modalites_paiement : List ModaliteRow
  paiements : List PaiementRow
  presences : List PresenceRow

/-- Deleting an etablissement row, following the referential actions declared
in init_db (src lines 125-253): abonnements, users, classes and
modalites_paiement rows of that institution are removed by ON DELETE CASCADE;
matieres rows of a removed class are removed by ON DELETE CASCADE on
classe_id; notes rows of a removed matiere and paiements rows of a removed
modalite cascade in turn; etudiants rows of a removed class have classe_id
set to NULL (ON DELETE SET NULL) and are kept, so presences and annees are
untouched. -/
def deleteEtablissement (db : DB) (eid : Nat) : DB :=
  let deletedClasses : List Nat :=
    (db.classes.filter fun c => decide (c.etablissement_id = some eid)).map
      fun c => c.id
  let deletedMatieres : List Nat :=
    (db.matieres.filter fun m =>
      match m.classe_id with
      | some cid => decide (cid ∈ deletedClasses)
      | none => false).map fun m => m.id
  let deletedModalites : List Nat :=
    (db.modalites_paiement.filter fun p =>
      decide (p.etablissement_id = eid)).map fun p => p.id
  { etablissement := db.etablissement.filter fun e => decide (¬ e.id = eid)
    abonnements :=
      db.abonnements.filter fun a => decide (¬ a.etablissement_id = eid)
    users := db.users.filter fun u => decide (¬ u.etablissement_id = some eid)
    annees := db.annees
    classes :=
      db.classes.filter fun c => decide (¬ c.etablissement_id = some eid)
    matieres := db.matieres.filter fun m =>
      match m.classe_id with
      | some cid => decide (¬ cid ∈ deletedClasses)
      | none => true
    etudiants := db.etudiants.map fun s =>
      match s.classe_id with
      | some cid =>
        if cid ∈ deletedClasses then { s with classe_id := none } else s
      | none => s
    notes := db.notes.filter fun n =>
      match n.matiere_id with
      | some mid => decide (¬ mid ∈ deletedMatieres)
      | none => true
    modalites_paiement :=
      db.modalites_paiement.filter fun p => decide (¬ p.etablissement_id = eid)
    paiements :=
      db.paiements.filter fun p => decide (¬ p.modalite_id ∈ deletedModalites)
    presences := db.presences }

/-- From src add_note (lines 331-337): a single parameterized INSERT into the
notes table with the supplied (etudiant_id, matiere_id, session, type,
controle, note) values; the SERIAL id is modelled as the successor of the
current row count. -/
def add_note (db : DB) (etudiant_id matiere_id : Nat) (session : Int)
    (type_note : String) (controle : Int) (note : ℚ) : DB :=
  { db with notes := db.notes ++
      [{ id := db.notes.length + 1
         etudiant_id := some etudiant_id
         matiere_id := some matiere_id
         session := session
         type := type_note
         controle := controle
         note := note }] }

/-- Upload directory constant from src line 37. -/
def UPLOAD_DIR_PHOTOS : String := "uploads/photos"

/-- Upload directory constant from src line 38. -/
def UPLOAD_DIR_DOCS : String := "uploads/docs"

/-- Upload directory constant from src line 39. -/
def UPLOAD_DIR_LOGO : String := "uploads/logo"

/-- From src lines 23-35: LOCAL_STORAGE_MODE = not all([DATABASE_URL,
CLOUDINARY_CLOUD_NAME]); a secret is truthy when present and non-empty. -/
def LOCAL_STORAGE_MODE (DATABASE_URL : String)
    (CLOUDINARY_CLOUD_NAME : Option String) : Bool :=
  !(decide (DATABASE_URL ≠ "") &&
    (match CLOUDINARY_CLOUD_NAME with
     | some s => decide (s ≠ "")
     | none => false))

/-- An uploaded file as the handlers see it: a name and the byte buffer
returned by getbuffer(). -/
structure UploadedFile where
  name : String
  content : List Nat
  deriving DecidableEq

/-- The outcome of the external Cloudinary upload call: either a result
carrying a secure_url, or a raised exception message. -/
inductive CloudResult
  | ok (secure_url : String)
  | raised (message : String)
  deriving DecidableEq

/-- From src handle_photo_upload (lines 60-74): None for a falsy file; in
cloud mode the Cloudinary secure_url, or None if the upload raises; in local
mode the file bytes are written to uploads/photos joined with the file name
and that path is returned. The returned pair is (return value, list of local
file writes performed). -/
def handle_photo_upload (localStorageMode : Bool) (cloud : CloudResult)
    (uploaded_file : Option UploadedFile) :
    Option String × List (String × List Nat) :=
  match uploaded_file with
  | none => (none, [])
  | some f =>
    if !localStorageMode then
      match cloud with
      | CloudResult.ok url => (some url, [])
      | CloudResult.raised _ => (none, [])
    else
      (some (UPLOAD_DIR_PHOTOS ++ "/" ++ f.name),
        [(UPLOAD_DIR_PHOTOS ++ "/" ++ f.name, f.content)])

/-- From src handle_doc_upload (lines 76-90): same behaviour with the
uploads/docs directory (cloud folder "docs", resource_type "raw"). -/
def handle_doc_upload (localStorageMode : Bool) (cloud : CloudResult)
    (uploaded_file : Option UploadedFile) :
    Option String × List (String × List Nat) :=
  match uploaded_file with
  | none => (none, [])
  | some f =>
    if !localStorageMode then
      match cloud with
      | CloudResult.ok url => (some url, [])
      | CloudResult.raised _ => (none, [])
    else
      (some (UPLOAD_DIR_DOCS ++ "/" ++ f.name),
        [(UPLOAD_DIR_DOCS ++ "/" ++ f.name, f.content)])

/-- From src handle_logo_upload (lines 92-107): same behaviour with the
uploads/logo directory; in cloud mode a timestamped public_id is passed to
Cloudinary but only the returned secure_url is used. -/
def handle_logo_upload (localStorageMode : Bool) (cloud : CloudResult)
    (uploaded_file : Option UploadedFile) :
    Option String × List (String × List Nat) :=
  match uploaded_file with
  | none => (none, [])
  | some f =>
    if !localStorageMode then
      match cloud with
      | CloudResult.ok url => (some url, [])
      | CloudResult.raised _ => (none, [])
    else
      (some (UPLOAD_DIR_LOGO ++ "/" ++ f.name),
        [(UPLOAD_DIR_LOGO ++ "/" ++ f.name, f.content)])

/-- The per-user Streamlit session state touched by the source: the
logged_in flag (key present and True), and the user_id, user_role,
etablissement_id and show_login keys. -/
structure SessionState where
  logged_in : Bool
  user_id : Option Nat
  user_role : Option String
  etablissement_id : Option Nat
  show_login : Bool
  deriving DecidableEq

/-- A rendering or database effect a page handler can perform. -/
inductive UIEffect
  | title (s : String)
  | write (s : String)
  | dbRead (query : String)
  | dbWrite (query : String)
  deriving DecidableEq

/-- True for the database effects. -/
def isDbEffect : UIEffect → Bool
  | UIEffect.dbRead _ => true
  | UIEffect.dbWrite _ => true
  | _ => false

/-- From src page_notes (lines 357-360): st.title then st.write of fixed
strings, nothing else; the database and session state are passed through. -/
def page_notes (db : DB) (sess : SessionState) :
    DB × SessionState × List UIEffect :=
  (db, sess,
    [UIEffect.title "📝 Notes", UIEffect.write "Saisie des notes."])

/-- From src page_bulletins (lines 382-385): st.title then st.write of fixed
strings, nothing else; the database and session state are passed through. -/
def page_bulletins (db : DB) (sess : SessionState) :
    DB × SessionState × List UIEffect :=
  (db, sess,
    [UIEffect.title "📄 Bulletins & Relevés",
     UIEffect.write "Génération des bulletins."])

/-- From src get_user_by_email (lines 264-270): SELECT * FROM users WHERE
email matches, fetchone: the first users row with the given email, if any.
In SELECT * order a row is (id, email, password, role, etablissement_id), so
row index 2 is the password column. -/
def get_user_by_email (users : List UserRow) (email : String) :
    Option UserRow :=
  (users.filter fun u => decide (u.email = email)).head?

/-- From src login_page (lines 432-448): look the user up by email; when a
row is found and its password column (user index 2) equals hash_password of
the supplied password - hash_password (src lines 57-58) is the lowercase hex
SHA-256 digest, modelled here as an abstract function - set the four session
keys and report success; otherwise leave the session state unchanged and
report failure. -/
def login_page (hash_password : String → String) (users : List UserRow)
    (email password : String) (sess : SessionState) : SessionState × Bool :=
  match get_user_by_email users email with
  | some u =>
    if u.password = hash_password password then
      ({ sess with
          logged_in := true
          user_id := some u.id
          user_role := some u.role
          etablissement_id := u.etablissement_id }, true)
    else (sess, false)
  | none => (sess, false)

/-- The users.email UNIQUE constraint of the schema (src line 152): no two
rows share an email. -/
def emailsUnique (users : List UserRow) : Prop :=
  users.Pairwise fun a b => a.email ≠ b.email

/-- A concrete one-row users table for evaluating login_page. -/
def sampleUsers : List UserRow :=
  [{ id := 1, email := "a@b.c", password := "hp", role := "admin",
     etablissement_id := some 1 }]

/-- A concrete fresh session state. -/
def sampleSess : SessionState :=
  { logged_in := false, user_id := none, user_role := none,
    etablissement_id := none, show_login := false }

/-- A concrete stand-in for hash_password in the witness. -/
def sampleHash : String → String := fun _ => "hp"

/-- The label of the institution-registration page (src line 472). -/
def inscriptionLabel : String := "➕ Inscription Établissement"

/-- From src main (lines 474-508): the pages added for each recognized role,
in dictionary insertion order; an unrecognized role gets none (main warns and
returns before showing the menu). -/
def rolePages (user_role : String) : Option (List String) :=
  if user_role = "admin" ∨ user_role = "direction" then
    some ["📊 Tableau de bord", "🏷️ Classes", "👨‍🎓 Étudiants", "📝 Notes",
      "✍️ Présences & Absences", "📄 Bulletins & Relevés",
      "📄 Listes d\u0027étudiants"]
  else if user_role = "comptable" ∨ user_role = "economat" then
    some ["📊 Tableau de bord", "💰 Modalités", "💳 Paiements",
      "📄 Listes d\u0027étudiants"]
  else if user_role = "teacher" then
    some ["🏷️ Classes", "📘 Matières", "👨‍🎓 Étudiants", "📝 Notes",
      "✍️ Présences & Absences", "📄 Bulletins & Relevés",
      "📄 Listes d\u0027étudiants"]
  else if user_role = "student" then
    some ["📄 Bulletins & Relevés", "📄 Listes d\u0027étudiants"]
  else none

/-- From src main (lines 452-511): the list of page labels offered by the
sidebar radio menu in one run, as a function of the etablissement count read
at the start of the run, whether the session is logged in, and the session
role. Without a login the login page is shown and no menu exists (none);
with an unrecognized role main warns and returns before showing the menu
(none); otherwise the menu is the inscription entry when the count is below
5, followed by the pages of the role. -/
def mainMenu (etablissements_count : Nat) (logged_in : Bool)
    (user_role : String) : Option (List String) :=
  if logged_in then
    match rolePages user_role with
    | some ps =>
      some ((if etablissements_count < 5 then [inscriptionLabel] else []) ++ ps)
    | none => none
  else none

/- ===================== Theorems ===================== -/

/-- Claim C1: for every intra-term weight w in [0,1] and score entries for one
(student, subject, session): with both groups non-empty, computeSessionMark is
the full mark continuous_mean * w + exam_mean * (1 - w); with both groups
empty it is the distinct no-data value, never a numeric mark (in particular
never 0); and with w = 0.3, continuous [70, 80], exam [50] the mark is 57.5. -/
theorem computeSessionMark_spec (w : ℚ) (hw0 : 0 ≤ w) (hw1 : w ≤ 1)
    (continuous exam : List ℚ) (hc : continuous ≠ []) (he : exam ≠ []) :
    computeSessionMark w continuous exam =
      SessionMark.full
        (continuous.sum / (continuous.length : ℚ) * w
          + exam.sum / (exam.length : ℚ) * (1 - w))
    ∧ computeSessionMark w [] [] = SessionMark.noData
    ∧ (∀ v : ℚ, computeSessionMark w [] [] ≠ SessionMark.full v)
    ∧ (∀ v : ℚ, computeSessionMark w [] [] ≠ SessionMark.provisional v)
    ∧ computeSessionMark (3/10) [70, 80] [50] = SessionMark.full (115/2) := by
  refine ⟨?_, ?_, ?_, ?_, ?_⟩
  · have hc' : continuous.length ≠ 0 := fun h => hc (List.length_eq_zero.mp h)
    have he' : exam.length ≠ 0 := fun h => he (List.length_eq_zero.mp h)
    simp [computeSessionMark, groupMean, hc', he']
  · rfl
  · intro v h
    simp [computeSessionMark, groupMean] at h
  · intro v h
    simp [computeSessionMark, groupMean] at h
  · norm_num [computeSessionMark, groupMean]

/-- Witness for C1 at the worked scenario of the spec: w = 3/10 is in [0,1], the
groups [70, 80] and [50] are non-empty, and the conclusion holds there. -/
theorem computeSessionMark_spec_witness :
    (0 : ℚ) ≤ 3/10 ∧ (3/10 : ℚ) ≤ 1 ∧ ([70, 80] : List ℚ) ≠ [] ∧
      ([50] : List ℚ) ≠ [] ∧
      computeSessionMark (3/10) [70, 80] [50] = SessionMark.full (115/2) :=
  ⟨by norm_num, by norm_num, by simp, by simp,
    (computeSessionMark_spec (3/10) (by norm_num) (by norm_num)
      [70, 80] [50] (by simp) (by simp)).2.2.2.2⟩

/-- Claim C2: classifySubject returns exactly one of Pass, Fail, Incomplete:
Pass when the mark is defined and at least the threshold (so a mark exactly at
the threshold is Pass), Fail when defined and below the threshold, Incomplete
when undefined. -/
theorem classifySubject_spec (m t : ℚ) :
    (classifySubject (some m) t = SubjectStatus.pass ↔ t ≤ m)
    ∧ (classifySubject (some m) t = SubjectStatus.fail ↔ m < t)
    ∧ classifySubject none t = SubjectStatus.incomplete
    ∧ classifySubject (some t) t = SubjectStatus.pass
    ∧ (classifySubject (some m) t = SubjectStatus.pass
        ∨ classifySubject (some m) t = SubjectStatus.fail) := by
  refine ⟨?_, ?_, rfl, ?_, ?_⟩
  · constructor
    · intro h
      by_contra hlt
      simp [classifySubject, hlt] at h
    · intro h
      simp [classifySubject, h]
  · constructor
    · intro h
      by_contra hle
      push_neg at hle
      simp [classifySubject, hle] at h
    · intro h
      have : ¬ t ≤ m := not_le.mpr h
      simp [classifySubject, this]
  · simp [classifySubject]
  · by_cases h : t ≤ m
    · exact Or.inl (by simp [classifySubject, h])
    · exact Or.inr (by simp [classifySubject, h])

/-- Claim C3 fails on the code: with DATABASE_URL empty, get_conn selects the
SQLite backend, and there the %s-placeholder query of get_user_by_email (and
likewise every other parameterized query) raises instead of completing; on
PostgreSQL the same query completes, and the parameterless count query
completes on both backends. -/
theorem dataAccess_sqlite_placeholder_bug :
    get_conn "" = Backend.sqlite
    ∧ executesWithoutError Backend.sqlite get_user_by_email_query = false
    ∧ executesWithoutError Backend.sqlite add_etudiant_query = false
    ∧ executesWithoutError Backend.sqlite add_note_query = false
    ∧ executesWithoutError Backend.postgres get_user_by_email_query = true
    ∧ executesWithoutError Backend.sqlite get_etablissement_count_query = true
    ∧ ¬ (∀ q ∈ dataAccessQueries, executesWithoutError (get_conn "") q = true) := by
  refine ⟨by decide, by decide, by decide, by decide, by decide, by decide, ?_⟩
  intro h
  have := h get_user_by_email_query (by simp [dataAccessQueries])
  exact absurd this (by decide)

/-- Claim C4: in the schema created by init_db, a matieres row inserted
without supplying those columns has note_de_passage 65.0, intra_weight 0.3
and coefficient 1. -/
theorem insertMatiere_defaults (id : Nat) (nom : String)
    (classe_id : Option Nat) :
    (insertMatiere id nom classe_id none none none).note_de_passage = 65
    ∧ (insertMatiere id nom classe_id none none none).intra_weight = 3/10
    ∧ (insertMatiere id nom classe_id none none none).coefficient = 1 :=
  ⟨rfl, rfl, rfl⟩

/-- Claim C5: after deleting an institution, none of its classes, payment
plans, users or subscriptions remain, the institution row itself is gone, and
no subject remains whose class belonged to the deleted institution (subjects
are removed transitively through the cascade of their class). -/
theorem deleteEtablissement_cascade (db : DB) (eid : Nat) :
    (∀ c ∈ (deleteEtablissement db eid).classes, c.etablissement_id ≠ some eid)
    ∧ (∀ p ∈ (deleteEtablissement db eid).modalites_paiement,
        p.etablissement_id ≠ eid)
    ∧ (∀ u ∈ (deleteEtablissement db eid).users,
        u.etablissement_id ≠ some eid)
    ∧ (∀ a ∈ (deleteEtablissement db eid).abonnements,
        a.etablissement_id ≠ eid)
    ∧ (∀ e ∈ (deleteEtablissement db eid).etablissement, e.id ≠ eid)
    ∧ (∀ m ∈ (deleteEtablissement db eid).matieres, ∀ c ∈ db.classes,
        m.classe_id = some c.id → c.etablissement_id ≠ some eid) := by
  refine ⟨?_, ?_, ?_, ?_, ?_, ?_⟩
  · intro c hc
    have h := (List.mem_filter.mp hc).2
    exact of_decide_eq_true h
  · intro p hp
    have h := (List.mem_filter.mp hp).2
    exact of_decide_eq_true h
  · intro u hu
    have h := (List.mem_filter.mp hu).2
    exact of_decide_eq_true h
  · intro a ha
    have h := (List.mem_filter.mp ha).2
    exact of_decide_eq_true h
  · intro e he
    have h := (List.mem_filter.mp he).2
    exact of_decide_eq_true h
  · intro m hm c hc hmc hce
    have h := (List.mem_filter.mp hm).2
    rw [hmc] at h
    have hnot : ¬ c.id ∈
        ((db.classes.filter fun c => decide (c.etablissement_id = some eid)).map
          fun c => c.id) := of_decide_eq_true h
    exact hnot (List.mem_map.mpr
      ⟨c, List.mem_filter.mpr ⟨hc, decide_eq_true hce⟩, rfl⟩)

/-- Witness for C5 at a concrete two-institution database: deleting
institution 5 leaves the class of institution 9 and removes everything of
institution 5. -/
theorem deleteEtablissement_cascade_witness :
    ∀ c ∈ (deleteEtablissement
        { etablissement := []
          abonnements := []
          users := []
          annees := []
          classes :=
            [{ id := 1, nom := "A", niveau := "1", annee_id := none,
               etablissement_id := some 5 },
             { id := 2, nom := "B", niveau := "2", annee_id := none,
               etablissement_id := some 9 }]
          matieres := []
          etudiants := []
          notes := []
          modalites_paiement := []
          paiements := []
          presences := [] } 5).classes,
      c.etablissement_id ≠ some 5 :=
  (deleteEtablissement_cascade
    { etablissement := []
      abonnements := []
      users := []
      annees := []
      classes :=
        [{ id := 1, nom := "A", niveau := "1", annee_id := none,
           etablissement_id := some 5 },
         { id := 2, nom := "B", niveau := "2", annee_id := none,
           etablissement_id := some 9 }]
      matieres := []
      etudiants := []
      notes := []
      modalites_paiement := []
      paiements := []
      presences := [] } 5).1

/-- Claim C6: add_note appends exactly one notes row holding the (student,
subject) pair, session identifier, assessment type, ordinal and value, and
leaves every other table of the database unchanged. -/
theorem add_note_spec (db : DB) (eid mid : Nat) (s : Int) (ty : String)
    (ct : Int) (v : ℚ) :
    (add_note db eid mid s ty ct v).notes = db.notes ++
      [{ id := db.notes.length + 1, etudiant_id := some eid,
         matiere_id := some mid, session := s, type := ty, controle := ct,
         note := v }]
    ∧ (add_note db eid mid s ty ct v).etablissement = db.etablissement
    ∧ (add_note db eid mid s ty ct v).abonnements = db.abonnements
    ∧ (add_note db eid mid s ty ct v).users = db.users
    ∧ (add_note db eid mid s ty ct v).annees = db.annees
    ∧ (add_note db eid mid s ty ct v).classes = db.classes
    ∧ (add_note db eid mid s ty ct v).matieres = db.matieres
    ∧ (add_note db eid mid s ty ct v).etudiants = db.etudiants
    ∧ (add_note db eid mid s ty ct v).modalites_paiement =
        db.modalites_paiement
    ∧ (add_note db eid mid s ty ct v).paiements = db.paiements
    ∧ (add_note db eid mid s ty ct v).presences = db.presences :=
  ⟨rfl, rfl, rfl, rfl, rfl, rfl, rfl, rfl, rfl, rfl, rfl⟩

/-- Claim C7: for every non-empty uploaded file, each handler writes the file
to its local uploads directory and returns the local path when
LOCAL_STORAGE_MODE is true; otherwise it returns the Cloudinary secure URL,
or None when the cloud upload raises. -/
theorem upload_handlers_spec (f : UploadedFile) (url msg : String)
    (lsm : Bool) (cloud : CloudResult) :
    handle_photo_upload true cloud (some f) =
      (some (UPLOAD_DIR_PHOTOS ++ "/" ++ f.name),
        [(UPLOAD_DIR_PHOTOS ++ "/" ++ f.name, f.content)])
    ∧ handle_photo_upload false (CloudResult.ok url) (some f) = (some url, [])
    ∧ handle_photo_upload false (CloudResult.raised msg) (some f) = (none, [])
    ∧ handle_doc_upload true cloud (some f) =
      (some (UPLOAD_DIR_DOCS ++ "/" ++ f.name),
        [(UPLOAD_DIR_DOCS ++ "/" ++ f.name, f.content)])
    ∧ handle_doc_upload false (CloudResult.ok url) (some f) = (some url, [])
    ∧ handle_doc_upload false (CloudResult.raised msg) (some f) = (none, [])
    ∧ handle_logo_upload true cloud (some f) =
      (some (UPLOAD_DIR_LOGO ++ "/" ++ f.name),
        [(UPLOAD_DIR_LOGO ++ "/" ++ f.name, f.content)])
    ∧ handle_logo_upload false (CloudResult.ok url) (some f) = (some url, [])
    ∧ handle_logo_upload false (CloudResult.raised msg) (some f) = (none, [])
    ∧ handle_photo_upload lsm cloud none = (none, []) :=
  ⟨rfl, rfl, rfl, rfl, rfl, rfl, rfl, rfl, rfl, rfl⟩

/-- Claim C8: page_notes and page_bulletins are stubs: they render exactly a
title and one fixed text line, perform no database read or write, and leave
the database and the session state unchanged. -/
theorem page_stubs_spec (db : DB) (sess : SessionState) :
    page_notes db sess =
      (db, sess,
        [UIEffect.title "📝 Notes", UIEffect.write "Saisie des notes."])
    ∧ page_bulletins db sess =
      (db, sess,
        [UIEffect.title "📄 Bulletins & Relevés",
         UIEffect.write "Génération des bulletins."])
    ∧ (page_notes db sess).1 = db
    ∧ (page_notes db sess).2.1 = sess
    ∧ (page_bulletins db sess).1 = db
    ∧ (page_bulletins db sess).2.1 = sess
    ∧ (page_notes db sess).2.2.filter isDbEffect = []
    ∧ (page_bulletins db sess).2.2.filter isDbEffect = [] :=
  ⟨rfl, rfl, rfl, rfl, rfl, rfl, rfl, rfl⟩

/-- Two member rows with the same email are the same row, given the UNIQUE
constraint. -/
theorem mem_eq_of_emailsUnique {users : List UserRow}
    (huniq : emailsUnique users) {u v : UserRow} (hu : u ∈ users)
    (hv : v ∈ users) (he : u.email = v.email) : u = v := by
  induction users with
  | nil => cases hu
  | cons a l ih =>
    have hpw := List.pairwise_cons.mp huniq
    cases hu with
    | head =>
      cases hv with
      | head => rfl
      | tail _ hv' => exact absurd he (hpw.1 v hv')
    | tail _ hu' =>
      cases hv with
      | head => exact absurd he.symm (hpw.1 u hu')
      | tail _ hv' => exact ih hpw.2 hu' hv'

/-- A row returned by get_user_by_email is a member with that email. -/
theorem get_user_by_email_mem {users : List UserRow} {email : String}
    {u : UserRow} (h : get_user_by_email users email = some u) :
    u ∈ users ∧ u.email = email := by
  unfold get_user_by_email at h
  have hmem : u ∈ users.filter fun v => decide (v.email = email) :=
    List.mem_of_mem_head? h
  have := List.mem_filter.mp hmem
  exact ⟨this.1, of_decide_eq_true this.2⟩

/-- Claim C9: given the UNIQUE email constraint, the session fields are set
if and only if a users row with the supplied email exists whose stored
password equals the hash of the supplied password; every failed attempt
(unknown email or non-matching hash) leaves the session state unchanged. -/
theorem login_page_spec (hash_password : String → String)
    (users : List UserRow) (email password : String) (sess : SessionState)
    (huniq : emailsUnique users) :
    ((∃ u ∈ users, u.email = email ∧ u.password = hash_password password) →
      ∃ u ∈ users, u.email = email ∧ u.password = hash_password password ∧
        login_page hash_password users email password sess =
          ({ sess with
              logged_in := true
              user_id := some u.id
              user_role := some u.role
              etablissement_id := u.etablissement_id }, true))
    ∧ ((¬ ∃ u ∈ users, u.email = email ∧ u.password = hash_password password)
        → login_page hash_password users email password sess =
            (sess, false)) := by
  constructor
  · rintro ⟨u, hu, hue, hup⟩
    refine ⟨u, hu, hue, hup, ?_⟩
    have hget : get_user_by_email users email = some u := by
      unfold get_user_by_email
      have humem : u ∈ users.filter fun v => decide (v.email = email) :=
        List.mem_filter.mpr ⟨hu, decide_eq_true hue⟩
      cases hfil : users.filter fun v => decide (v.email = email) with
      | nil => rw [hfil] at humem; cases humem
      | cons a l =>
        have hamem : a ∈ users.filter fun v => decide (v.email = email) :=
          hfil ▸ List.mem_cons_self a l
        have ha := List.mem_filter.mp hamem
        have hae : a.email = email := of_decide_eq_true ha.2
        have : a = u :=
          mem_eq_of_emailsUnique huniq ha.1 hu (hae.trans hue.symm)
        simp [this]
    unfold login_page
    rw [hget]
    simp [hup]
  · intro hnone
    unfold login_page
    cases hget : get_user_by_email users email with
    | none => rfl
    | some u =>
      have hmem := get_user_by_email_mem hget
      have hne : ¬ u.password = hash_password password := fun hp =>
        hnone ⟨u, hmem.1, hmem.2, hp⟩
      simp [hne]

/-- Witness for C9 at a one-row users table whose stored password matches the
hash of the supplied password. -/
theorem login_page_spec_witness :
    emailsUnique sampleUsers
    ∧ (((∃ u ∈ sampleUsers,
          u.email = "a@b.c" ∧ u.password = sampleHash "pw") →
        ∃ u ∈ sampleUsers,
          u.email = "a@b.c" ∧ u.password = sampleHash "pw" ∧
          login_page sampleHash sampleUsers "a@b.c" "pw" sampleSess =
            ({ sampleSess with
                logged_in := true
                user_id := some u.id
                user_role := some u.role
                etablissement_id := u.etablissement_id }, true))
      ∧ ((¬ ∃ u ∈ sampleUsers,
            u.email = "a@b.c" ∧ u.password = sampleHash "pw") →
          login_page sampleHash sampleUsers "a@b.c" "pw" sampleSess =
            (sampleSess, false))) :=
  ⟨List.pairwise_singleton _ _,
    login_page_spec sampleHash sampleUsers "a@b.c" "pw" sampleSess
      (List.pairwise_singleton _ _)⟩

/-- The inscription label is not among the own pages of any role. -/
theorem inscription_not_in_rolePages (user_role : String) (ps : List String)
    (h : rolePages user_role = some ps) : inscriptionLabel ∉ ps := by
  unfold rolePages at h
  split at h
  · cases h; decide
  · split at h
    · cases h; decide
    · split at h
      · cases h; decide
      · split at h
        · cases h; decide
        · cases h

/-- Claim C10 as stated is false at a run where fewer than 5 institutions
exist but nobody is logged in: the login page is shown, no navigation menu is
offered, so the registration page is not offered although the count is below
5. -/
theorem mainMenu_counterexample :
    ¬ (inscriptionLabel ∈ (mainMenu 0 false "admin").getD [] ↔ 0 < 5) := by
  intro h
  have := h.mpr (by norm_num)
  simp [mainMenu] at this

/-- Claim C10 amended: on every logged-in run of main whose session role is
recognized, the registration page is offered in the navigation menu exactly
when the etablissement count at the start of the run is below 5; and with 5
or more institutions the registration page is offered on no run at all, so
no new institution can be registered through the UI. -/
theorem mainMenu_inscription_spec (count : Nat) (user_role : String)
    (ps : List String) (hrole : rolePages user_role = some ps) :
    (inscriptionLabel ∈ (mainMenu count true user_role).getD [] ↔ count < 5)
    ∧ (∀ lo : Bool, ∀ r : String, 5 ≤ count →
        inscriptionLabel ∉ (mainMenu count lo r).getD []) := by
  constructor
  · by_cases hc : count < 5
    · simp [mainMenu, hrole, hc]
    · simp only [mainMenu, hrole, if_true, if_neg hc, List.nil_append,
        Option.getD_some]
      simp only [hc, iff_false]
      exact inscription_not_in_rolePages user_role ps hrole
  · intro lo r hge
    cases lo with
    | false => simp [mainMenu]
    | true =>
      cases hr : rolePages r with
      | none => simp [mainMenu, hr]
      | some ps' =>
        have hc : ¬ count < 5 := not_lt.mpr hge
        simp only [mainMenu, hr, if_true, if_neg hc, List.nil_append,
          Option.getD_some]
        exact inscription_not_in_rolePages r ps' hr

/-- Witness for C10 amended at count 0 and the admin role. -/
theorem mainMenu_inscription_spec_witness :
    rolePages "admin" =
      some ["📊 Tableau de bord", "🏷️ Classes", "👨‍🎓 Étudiants", "📝 Notes",
        "✍️ Présences & Absences", "📄 Bulletins & Relevés",
        "📄 Listes d\u0027étudiants"]
    ∧ ((inscriptionLabel ∈ (mainMenu 0 true "admin").getD [] ↔ 0 < 5)
      ∧ (∀ lo : Bool, ∀ r : String, 5 ≤ 0 →
          inscriptionLabel ∉ (mainMenu 0 lo r).getD [])) :=
  ⟨by simp [rolePages],
    mainMenu_inscription_spec 0 "admin"
      ["📊 Tableau de bord", "🏷️ Classes", "👨‍🎓 Étudiants", "📝 Notes",
        "✍️ Présences & Absences", "📄 Bulletins & Relevés",
        "📄 Listes d\u0027étudiants"] (by simp [rolePages])⟩
